import Mathlib

/-!
Verification of the Max6697 temperature-sensor-hub component
(`arista/components/max6697.py`) and of the surrounding component
framework described by its specification.

The Python class is embedded shallowly: the component's attributes become
a structure, `__init__` becomes a constructor function whose optional
arguments are `Option`-valued (with Python truthiness for the `drivers or
[...]` idiom made explicit), and `addTempSensors` becomes a pure state
transformer.  Parts of the framework that the source does not show (the
Component base initialization policy and the Component Registry) are
modelled from the specification text and marked as such.
-/

/-- The `Priority` enumeration from `arista.core.component`, an ordered
set of bring-up precedence tags (lower ordinal brought up earlier). -/
inductive Priority where
  | THERMAL
  | POWER
  | FAN
  | LED
  | DEFAULT
deriving DecidableEq

/-- Driver handles.  `Max6697KernelDriver addr` embeds the
`Max6697KernelDriver(addr=addr)` construction from
`arista.drivers.max6697`; `OtherDriver` stands for any other explicitly
supplied driver handle, so that explicit driver sequences can be
arbitrary. -/
inductive Driver where
  | Max6697KernelDriver (addr : Nat) : Driver
  | OtherDriver (tag : Nat) : Driver
deriving DecidableEq

/-- Python truthiness of the `drivers or [ ... ]` idiom on line 9 of
`max6697.py`: `none` models an omitted (or explicitly `None`) argument,
and an explicitly supplied empty list is also falsy, so both are replaced
by the default; any non-empty explicit list is kept. -/
def pyOrList (x : Option (List Driver)) (dflt : List Driver) : List Driver :=
  match x with
  | none => dflt
  | some l => if l.isEmpty then dflt else l

/-- The state of a `Max6697` component: the bus address, the owned driver
handles and the priority passed to the component base, and the mutable
sensor-descriptor list (`self.sensors`). -/
structure Max6697 where
  addr : Nat
  drivers : List Driver
  priority : Priority
  sensors : List String
deriving DecidableEq

/-- `Max6697.__init__`: `driversArg = none` models an omitted `drivers`
argument and `priorityArg = none` an omitted `priority` argument (whose
Python default is `Priority.THERMAL`).  Line 9 resolves the drivers via
`drivers or [ Max6697KernelDriver(addr=addr) ]`, line 10 sets
`self.sensors = []`, and lines 11-12 pass `addr`, `drivers` and
`priority` to the component base. -/
def Max6697.init (addr : Nat) (driversArg : Option (List Driver))
    (priorityArg : Option Priority) : Max6697 :=
  let priority := priorityArg.getD Priority.THERMAL
  let drivers := pyOrList driversArg [Driver.Max6697KernelDriver addr]
  { addr := addr, drivers := drivers, priority := priority, sensors := [] }

/-- `Max6697.addTempSensors`: `self.sensors.extend(sensors)` appends the
given descriptors, in order, to the end of the sensor list. -/
def Max6697.addTempSensors (c : Max6697) (sensors : List String) : Max6697 :=
  { c with sensors := c.sensors ++ sensors }

/-- Component terminal/lifecycle states from the specification's state
machine. -/
inductive CState where
  | UNINITIALIZED
  | INITIALIZING
  | HEALTHY
  | DEGRADED
  | FAILED
deriving DecidableEq

/-- Modelled from the spec: the Component base `initialize()` policy is
not part of the shown source.  Per the spec, `initialize()` delegates to
each owned driver handle, tolerating per-handle failure; the component is
marked FAILED only if all its handles failed, DEGRADED if some but not
all failed, and HEALTHY otherwise.  The argument records each handle's
per-handle outcome in declaration order (`true` = that handle initialized
successfully). -/
def componentFinalState (results : List Bool) : CState :=
  if results.all id then CState.HEALTHY
  else if results.any id then CState.DEGRADED
  else CState.FAILED

/-- A component key, per the spec (bus-address, component-type). -/
abbrev RegKey : Type := Nat × String

/-- Modelled from the spec: the Component Registry, an insertion-ordered
mapping from component key to component; not part of the shown source. -/
abbrev Registry : Type := List (RegKey × Max6697)

/-- Modelled from the spec: `register` fails with `DuplicateKeyError`
when a component with the same key already exists, and otherwise appends
the new entry; not part of the shown source. -/
def Registry.register (reg : Registry) (k : RegKey) (c : Max6697) :
    Except String Registry :=
  if reg.any (fun e => decide (e.1 = k)) then Except.error "DuplicateKeyError"
  else Except.ok (reg ++ [(k, c)])

/-- Modelled from the spec: the Component base constructor (invoked on
lines 11-12 of `max6697.py` and not part of the shown source) registers
the new component into the Registry immediately upon construction, so
constructing a `Max6697` is a single operation that both builds the
component state and registers it. -/
def constructMax6697 (reg : Registry) (addr : Nat)
    (driversArg : Option (List Driver)) (priorityArg : Option Priority) :
    Except String (Max6697 × Registry) :=
  let c := Max6697.init addr driversArg priorityArg
  match Registry.register reg (addr, "max6697") c with
  | Except.error e => Except.error e
  | Except.ok r => Except.ok (c, r)

/-- Helper: folding `addTempSensors` over a list of calls concatenates
the appended descriptor lists, in call order, after the existing
sensors. -/
theorem foldl_addTempSensors_sensors (calls : List (List String))
    (c : Max6697) :
    (calls.foldl Max6697.addTempSensors c).sensors = c.sensors ++ calls.flatten := by
  induction calls generalizing c with
  | nil => simp
  | cons hd tl ih =>
      simp [Max6697.addTempSensors, ih, List.append_assoc]

/-- C1: for every sequence of calls to `addTempSensors`, the resulting
sensor list is the concatenation of the appended descriptor lists in
call order, the total count is the sum of the appended lists' lengths,
and in particular `addTempSensors ["zone1","zone2"]` followed by
`addTempSensors ["zone3"]` on a fresh hub yields exactly
`["zone1","zone2","zone3"]`. -/
theorem C1_addTempSensors_concat_in_order (c : Max6697)
    (calls : List (List String)) :
    (calls.foldl Max6697.addTempSensors c).sensors = c.sensors ++ calls.flatten ∧
    (calls.foldl Max6697.addTempSensors c).sensors.length
      = c.sensors.length + (calls.map List.length).sum ∧
    (((Max6697.init 0 none none).addTempSensors
        ["zone1", "zone2"]).addTempSensors ["zone3"]).sensors
      = ["zone1", "zone2", "zone3"] := by
  refine ⟨foldl_addTempSensors_sensors calls c, ?_, rfl⟩
  rw [foldl_addTempSensors_sensors calls c]
  simp [List.length_flatten]

/-- C2: when the `drivers` argument is omitted, exactly one default
driver handle, a `Max6697KernelDriver` at the given bus address, is
constructed and becomes the component's sole owned driver. -/
theorem C2_default_driver (addr : Nat) (priorityArg : Option Priority) :
    (Max6697.init addr none priorityArg).drivers
      = [Driver.Max6697KernelDriver addr] := rfl

/-- C3: when the `priority` argument is omitted, the component's
assigned priority is `THERMAL`. -/
theorem C3_default_priority (addr : Nat) (driversArg : Option (List Driver)) :
    (Max6697.init addr driversArg none).priority = Priority.THERMAL := rfl

/-- C4: `addTempSensors` never rejects or de-duplicates: appending a
descriptor already present in the sensor list succeeds, appends it at
the end, and leaves the list with at least two copies of that
descriptor. -/
theorem C4_duplicates_accepted (c : Max6697) (s : String)
    (h : s ∈ c.sensors) :
    (c.addTempSensors [s]).sensors = c.sensors ++ [s] ∧
    2 ≤ (c.addTempSensors [s]).sensors.count s := by
  refine ⟨rfl, ?_⟩
  have hc : 1 ≤ c.sensors.count s := List.count_pos_iff.mpr h
  have hcnt : (c.addTempSensors [s]).sensors.count s = c.sensors.count s + 1 := by
    simp [Max6697.addTempSensors, List.count_append]
  omega

/-- C4 witness: on a component already holding "zone1", re-adding
"zone1" appends it and yields two copies. -/
theorem C4_duplicates_accepted_witness :
    ((Max6697.init 0 none none).addTempSensors ["zone1"]).addTempSensors
        ["zone1"] = ((Max6697.init 0 none none).addTempSensors ["zone1"]).addTempSensors ["zone1"] ∧
    2 ≤ (((Max6697.init 0 none none).addTempSensors
        ["zone1"]).addTempSensors ["zone1"]).sensors.count "zone1" := by
  refine ⟨rfl, ?_⟩
  exact (C4_duplicates_accepted
    ((Max6697.init 0 none none).addTempSensors ["zone1"]) "zone1"
    (by simp [Max6697.addTempSensors, Max6697.init, pyOrList])).2

/-- C5: however the component is constructed (drivers omitted, empty, or
any explicit sequence), the driver list passed to the component base is
non-empty. -/
theorem C5_drivers_nonempty (addr : Nat) (driversArg : Option (List Driver))
    (priorityArg : Option Priority) :
    (Max6697.init addr driversArg priorityArg).drivers ≠ [] := by
  cases driversArg with
  | none => simp [Max6697.init, pyOrList]
  | some l =>
      by_cases hl : l.isEmpty <;>
        simp_all [Max6697.init, pyOrList, List.isEmpty_iff]

/-- Helper: in a list of per-handle outcomes, the counts of successes
and failures sum to the number of handles. -/
theorem count_true_add_count_false (l : List Bool) :
    l.count true + l.count false = l.length := by
  induction l with
  | nil => rfl
  | cons b t ih => cases b <;> simp [List.count_cons, ih] <;> omega

/-- C6: for a component with N driver handles of which k fail during
initialization: if 1 ≤ k < N the final state is DEGRADED and exactly
N − k handles report success; if k = N (with N > 0) the final state is
FAILED. -/
theorem C6_partial_failure_policy (results : List Bool) (k : Nat)
    (hk : k = results.count false) :
    (1 ≤ k → k < results.length →
      componentFinalState results = CState.DEGRADED ∧
      results.count true = results.length - k) ∧
    (k = results.length → 0 < results.length →
      componentFinalState results = CState.FAILED) := by
  have hsum := count_true_add_count_false results
  constructor
  · intro h1 h2
    have hnotall : ¬ results.all id := by
      intro hall
      have : false ∈ results := by
        have := List.count_pos_iff.mp (by omega : 0 < results.count false)
        exact this
      have := List.all_eq_true.mp hall false this
      simp at this
    have hany : results.any id := by
      have htrue : 0 < results.count true := by omega
      have : true ∈ results := List.count_pos_iff.mp htrue
      exact List.any_eq_true.mpr ⟨true, this, rfl⟩
    refine ⟨?_, by omega⟩
    simp [componentFinalState, hnotall, hany]
  · intro hall hpos
    have htrue : results.count true = 0 := by omega
    have hnomem : true ∉ results := by
      intro hmem
      have := List.count_pos_iff.mpr hmem
      omega
    have hnotall : ¬ results.all id := by
      intro hallid
      obtain ⟨b, hb⟩ := List.exists_mem_of_length_pos hpos
      have := List.all_eq_true.mp hallid b hb
      cases b with
      | false => simp at this
      | true => exact hnomem hb
    have hnotany : ¬ results.any id := by
      intro hanyid
      obtain ⟨b, hb, hbid⟩ := List.any_eq_true.mp hanyid
      cases b with
      | false => simp at hbid
      | true => exact hnomem hb
    simp [componentFinalState, hnotall, hnotany]

/-- C6 witness: with outcomes [success, failure] (N = 2, k = 1) the
final state is DEGRADED with one success; with [failure, failure]
(k = N = 2) the final state is FAILED. -/
theorem C6_partial_failure_policy_witness :
    (componentFinalState [true, false] = CState.DEGRADED ∧
      List.count true [true, false] = 2 - 1) ∧
    componentFinalState [false, false] = CState.FAILED := by
  refine ⟨(C6_partial_failure_policy [true, false] 1 (by decide)).1
    (by decide) (by decide), ?_⟩
  exact (C6_partial_failure_policy [false, false] 2 (by decide)).2
    (by decide) (by decide)

/-- C7: construction and registration are a single step: whenever
constructing a component succeeds, the resulting registry already
contains the newly built component under its key, with no separate
registration call by the caller. -/
theorem C7_registered_on_construction (reg : Registry) (addr : Nat)
    (driversArg : Option (List Driver)) (priorityArg : Option Priority)
    (c : Max6697) (r : Registry)
    (h : constructMax6697 reg addr driversArg priorityArg
        = Except.ok (c, r)) :
    c = Max6697.init addr driversArg priorityArg ∧ ((addr, "max6697"), c) ∈ r := by
  unfold constructMax6697 Registry.register at h
  by_cases hdup : reg.any (fun e => decide (e.1 = (addr, "max6697")))
  · simp [hdup] at h
  · simp [hdup] at h
    obtain ⟨hc, hr⟩ := h
    subst hc
    subst hr
    exact ⟨rfl, by simp⟩

/-- C7 witness: constructing a Max6697 at address 7 into the empty
registry yields a registry containing it under key (7, "max6697"). -/
theorem C7_registered_on_construction_witness :
    Max6697.init 7 none none = Max6697.init 7 none none ∧
    ((7, "max6697"), Max6697.init 7 none none) ∈
      ([((7, "max6697"), Max6697.init 7 none none)] : Registry) :=
  C7_registered_on_construction [] 7 none none
    (Max6697.init 7 none none)
    [((7, "max6697"), Max6697.init 7 none none)] rfl

/-- C8: an explicitly supplied empty (falsy) drivers sequence behaves
exactly like an omitted argument: it is discarded and replaced by the
single default `Max6697KernelDriver` for the address. -/
theorem C8_empty_drivers_like_omitted (addr : Nat)
    (priorityArg : Option Priority) :
    Max6697.init addr (some []) priorityArg
      = Max6697.init addr none priorityArg ∧
    (Max6697.init addr (some []) priorityArg).drivers
      = [Driver.Max6697KernelDriver addr] := ⟨rfl, rfl⟩

/-- C9: immediately after construction, for every choice of
constructor arguments, the sensor list is empty. -/
theorem C9_sensors_start_empty (addr : Nat)
    (driversArg : Option (List Driver)) (priorityArg : Option Priority) :
    (Max6697.init addr driversArg priorityArg).sensors = [] := rfl

/-- C10: `addTempSensors` modifies only the sensor list: the bus
address, owned drivers and priority are unchanged. -/
theorem C10_addTempSensors_frame (c : Max6697) (ss : List String) :
    (c.addTempSensors ss).addr = c.addr ∧
    (c.addTempSensors ss).drivers = c.drivers ∧
    (c.addTempSensors ss).priority = c.priority := ⟨rfl, rfl, rfl⟩
